import Mathlib

/-!
Verification of the `eisen-core` HighResNet implementation
(`src/eisen/models/segmentation/highres3Dnet.py`).

The file shallow-embeds the architecture-building code: each Python
`nn.Module` subclass becomes a Lean structure, each `__init__` becomes a
constructor function returning `Except PyErr _` (an `assert` failure is
`PyErr.assertionError`, use of an unbound local is `PyErr.nameError`,
a missing attribute is `PyErr.attributeError`, a framework tensor error
is `PyErr.runtimeError`).  Framework layers (`nn.Conv3d`, `nn.BatchNorm3d`,
...) are embedded only through the data the claims need: their learned
parameter shapes, their effect on spatial size, and their kernel/dilation.
-/

namespace HighRes

/-- Python-level errors that the embedded constructors and forward passes
can raise. -/
inductive PyErr where
  | assertionError
  | nameError
  | attributeError
  | runtimeError
deriving DecidableEq, Repr

/-- The keys of the `PADDING_MODES` dictionary (line 33 of the source). -/
def PADDING_MODES : List String := ["reflect", "replicate", "constant"]

/-- A primitive framework layer appearing inside a `ConvolutionalBlock` or
as a residual projection.  Only the data relevant to parameter shapes,
receptive field and spatial size is recorded.

* `padL a mode dims` : `ReflectionPad2d`/`ReplicationPad2d`/`ZeroPad2d`
  (2-d case) or `Pad3d` (3-d case), padding every spatial side by `a`;
* `convL inC outC k d bias dims` : `nn.Conv2d`/`nn.Conv3d` with square
  kernel `k`, dilation `d`, stride 1, no internal padding;
* `batchNormL c dims` : `nn.BatchNorm2d`/`nn.BatchNorm3d` on `c` channels
  (default `affine=True`: a weight and a bias vector of `c` entries each);
* `instanceNormL c dims` : `nn.InstanceNorm2d`/`nn.InstanceNorm3d`
  (default `affine=False`: no learned parameters);
* `reluL` : `nn.ReLU`. -/
inductive Prim where
  | padL (amount : Nat) (mode : String) (dims : Nat)
  | convL (inC outC kernel dilation : Nat) (bias : Bool) (dims : Nat)
  | batchNormL (c : Nat) (dims : Nat)
  | instanceNormL (c : Nat) (dims : Nat)
  | reluL
deriving DecidableEq, Repr

/-- Arguments of `ConvolutionalBlock.__init__` (lines 120-133). -/
structure ConvBlockCfg where
  in_channels : Nat
  out_channels : Nat
  dilation : Nat
  dimensions : Nat
  batch_norm : Bool := true
  instance_norm : Bool := false
  padding_mode : String := "constant"
  preactivation : Bool := true
  kernel_size : Nat := 3
  activation : Bool := true
deriving DecidableEq, Repr

/-- A constructed `ConvolutionalBlock`: the `nn.Sequential` list of
primitive layers stored in `self.convolutional_block`. -/
structure ConvBlock where
  convolutional_block : List Prim
deriving DecidableEq, Repr

/-- The norm layer appended by `ConvolutionalBlock.__init__` when
`batch_norm or instance_norm` holds: `norm_class` is the batch-norm class
when `batch_norm` is set and the instance-norm class when `instance_norm`
is set (the asserted precondition rules out both being set). -/
def normLayers (c : ConvBlockCfg) (ch : Nat) : List Prim :=
  if c.batch_norm then [.batchNormL ch c.dimensions]
  else if c.instance_norm then [.instanceNormL ch c.dimensions]
  else []

/-- The layer list built by `ConvolutionalBlock.__init__` (lines 138-179):
optional preactivation norm + ReLU, a padding layer when `kernel_size > 1`,
the convolution (with bias exactly when no normalization is used), and
optional postactivation norm + ReLU. -/
def convBlockLayers (c : ConvBlockCfg) : List Prim :=
  (if c.preactivation then
      normLayers c c.in_channels ++ (if c.activation then [.reluL] else [])
    else [])
  ++ (if 1 < c.kernel_size then [.padL c.dilation c.padding_mode c.dimensions] else [])
  ++ [.convL c.in_channels c.out_channels c.kernel_size c.dilation
        (!(c.instance_norm || c.batch_norm)) c.dimensions]
  ++ (if !c.preactivation then
      normLayers c c.out_channels ++ (if c.activation then [.reluL] else [])
    else [])

/-- Mirrors `ConvolutionalBlock.__init__`: the two `assert` statements
(lines 134-135), then construction.  When `dimensions` is neither 2 nor 3,
neither branch of lines 138-144 binds the local `padding_instance`, so
`layers.append(padding_instance)` (line 161, reached exactly when
`kernel_size > 1`) raises an unbound-local name error. -/
def mkConvBlock (c : ConvBlockCfg) : Except PyErr ConvBlock :=
  if c.padding_mode ∉ PADDING_MODES then .error .assertionError
  else if c.batch_norm ∧ c.instance_norm then .error .assertionError
  else if 1 < c.kernel_size ∧ c.dimensions ≠ 2 ∧ c.dimensions ≠ 3 then .error .nameError
  else .ok ⟨convBlockLayers c⟩

/-- Arguments of `ResidualBlock.__init__` (lines 44-56). -/
structure ResBlockCfg where
  in_channels : Nat
  out_channels : Nat
  num_layers : Nat
  dilation : Nat
  dimensions : Nat
  batch_norm : Bool := true
  instance_norm : Bool := false
  residual : Bool := true
  residual_type : String := "pad"
  padding_mode : String := "constant"
deriving DecidableEq, Repr

/-- A constructed `ResidualBlock`: the flags recorded on `self`, the
optional `change_dim_layer` projection convolution, and the
`nn.Sequential` list of convolutional blocks in `self.residual_block`. -/
structure ResBlock where
  residual : Bool
  change_dimension : Bool
  residual_type : String
  dimensions : Nat
  change_dim_layer : Option Prim
  residual_block : List ConvBlock
deriving DecidableEq, Repr

/-- The `ConvolutionalBlock` configuration built in the loop of
`ResidualBlock.__init__` (lines 75-86) for the current `in_channels`. -/
def stackConvCfg (c : ResBlockCfg) (inC : Nat) : ConvBlockCfg :=
  { in_channels := inC
    out_channels := c.out_channels
    dilation := c.dilation
    dimensions := c.dimensions
    batch_norm := c.batch_norm
    instance_norm := c.instance_norm
    padding_mode := c.padding_mode }

/-- The loop of `ResidualBlock.__init__` building `num_layers`
convolutional blocks, rebinding `in_channels = out_channels` after each. -/
def mkConvStack (c : ResBlockCfg) : Nat → Nat → Except PyErr (List ConvBlock)
  | 0, _ => .ok []
  | n + 1, inC =>
    match mkConvBlock (stackConvCfg c inC) with
    | .error e => .error e
    | .ok cb =>
      match mkConvStack c n c.out_channels with
      | .error e => .error e
      | .ok rest => .ok (cb :: rest)

/-- Mirrors `ResidualBlock.__init__`: the `assert residual_type in
('pad', 'project')` (line 57), the recorded flags, the optional
kernel-1 bias-free projection convolution (lines 63-72, built only when
the channel counts differ and `residual_type == 'project'`), and the
stack of convolutional blocks. -/
def mkResidualBlock (c : ResBlockCfg) : Except PyErr ResBlock :=
  if ¬ (c.residual_type = "pad" ∨ c.residual_type = "project") then
    .error .assertionError
  else
    match mkConvStack c c.num_layers c.in_channels with
    | .error e => .error e
    | .ok stack =>
      .ok { residual := c.residual
            change_dimension := decide (c.in_channels ≠ c.out_channels)
            residual_type := c.residual_type
            dimensions := c.dimensions
            change_dim_layer :=
              if c.in_channels ≠ c.out_channels ∧ c.residual_type = "project" then
                some (.convL c.in_channels c.out_channels 1 c.dilation false c.dimensions)
              else none
            residual_block := stack }

/-- Arguments of `DilationBlock.__init__` (lines 197-209). -/
structure DilBlockCfg where
  in_channels : Nat
  out_channels : Nat
  dilation : Nat
  dimensions : Nat
  layers_per_block : Nat := 2
  num_residual_blocks : Nat := 3
  batch_norm : Bool := true
  instance_norm : Bool := false
  residual : Bool := true
  padding_mode : String := "constant"
deriving DecidableEq, Repr

/-- A constructed `DilationBlock`: the recorded channel counts and the
`nn.Sequential` list of residual blocks in `self.dilation_block`. -/
structure DilBlock where
  in_channels : Nat
  out_channels : Nat
  dilation_block : List ResBlock
deriving DecidableEq, Repr

/-- The `ResidualBlock` configuration built in the loop of
`DilationBlock.__init__` (lines 214-227) for the current `in_channels`
(the `residual_type` argument is not passed, so it keeps its default). -/
def dilResCfg (c : DilBlockCfg) (inC : Nat) : ResBlockCfg :=
  { in_channels := inC
    out_channels := c.out_channels
    num_layers := c.layers_per_block
    dilation := c.dilation
    dimensions := c.dimensions
    batch_norm := c.batch_norm
    instance_norm := c.instance_norm
    residual := c.residual
    padding_mode := c.padding_mode }

/-- The loop of `DilationBlock.__init__` building `num_residual_blocks`
residual blocks, rebinding `in_channels = out_channels` after each. -/
def mkResStack (c : DilBlockCfg) : Nat → Nat → Except PyErr (List ResBlock)
  | 0, _ => .ok []
  | n + 1, inC =>
    match mkResidualBlock (dilResCfg c inC) with
    | .error e => .error e
    | .ok rb =>
      match mkResStack c n c.out_channels with
      | .error e => .error e
      | .ok rest => .ok (rb :: rest)

/-- Mirrors `DilationBlock.__init__` (lines 197-228). -/
def mkDilationBlock (c : DilBlockCfg) : Except PyErr DilBlock :=
  match mkResStack c c.num_residual_blocks c.in_channels with
  | .error e => .error e
  | .ok bs => .ok { in_channels := c.in_channels, out_channels := c.out_channels,
                    dilation_block := bs }

/-- The output activation module stored by `HighResNet.__init__`
(lines 332-337): `nn.Sigmoid`, `nn.Softmax` or `nn.Identity`. -/
inductive ActKind where
  | sigmoid
  | softmax
  | identity
deriving DecidableEq, Repr

/-- Arguments of `HighResNet.__init__` (lines 235-250).  `dimensions`
defaults to `None`, embedded as `Option.none`. -/
structure HighResNetCfg where
  input_channels : Nat
  output_channels : Nat
  initial_out_channels_power : Nat := 4
  outputs_activation : String := "sigmoid"
  dimensions : Option Nat := none
  layers_per_residual_block : Nat := 2
  residual_blocks_per_dilation : Nat := 3
  dilations : Nat := 3
  batch_norm : Bool := true
  instance_norm : Bool := false
  residual : Bool := true
  padding_mode : String := "constant"
  add_dropout_layer : Bool := false
deriving DecidableEq, Repr

/-- One entry of the block list assembled by `HighResNet.__init__`:
a convolutional block, a dilation block, or the parameterless
`nn.Dropout3d` layer. -/
inductive HBlock where
  | convB (b : ConvBlock)
  | dilB (b : DilBlock)
  | dropB
deriving DecidableEq, Repr

/-- A constructed `HighResNet`: the attributes set on `self` in
lines 253-257 and 332-339.  `outputs_activation` is `none` when the
string matched no branch of lines 332-337, in which case the attribute
was never set. -/
structure HighResNetM where
  in_channels : Nat
  out_channels : Nat
  layers_per_residual_block : Nat
  residual_blocks_per_dilation : Nat
  dilations : Nat
  outputs_activation : Option ActKind
  block : List HBlock
deriving DecidableEq, Repr, Inhabited

/-- The configuration-independent data threaded through the dilation-block
loop of `HighResNet.__init__`. -/
structure DilLoopParams where
  dimensions : Nat
  layers_per_residual_block : Nat
  residual_blocks_per_dilation : Nat
  batch_norm : Bool
  instance_norm : Bool
  residual : Bool
  padding_mode : String
deriving DecidableEq, Repr

/-- The `DilationBlock` configuration built at loop index `idx`
(lines 283-294) for the current channel counts. -/
def loopDilCfg (q : DilLoopParams) (idx inC outC : Nat) : DilBlockCfg :=
  { in_channels := inC
    out_channels := outC
    dilation := 2 ^ idx
    dimensions := q.dimensions
    layers_per_block := q.layers_per_residual_block
    num_residual_blocks := q.residual_blocks_per_dilation
    batch_norm := q.batch_norm
    instance_norm := q.instance_norm
    residual := q.residual
    padding_mode := q.padding_mode }

/-- The rebinding of the `in_channels` variable at the top of each loop
iteration (lines 280-281): when `idx >= 1` it becomes the previous
dilation block's `out_channels` attribute. -/
def effIn (prev : Option DilBlock) (idx inC : Nat) : Nat :=
  match prev with
  | some b => if 1 ≤ idx then b.out_channels else inC
  | none => inC

/-- The loop of lines 278-296: `n` remaining iterations, current index
`idx`, current `in_channels` and `out_channels` variables, and the
previously built dilation block (the `dilation_block` local, `none` before
the first iteration).  When `idx >= 1` the `in_channels` variable is
rebound to the previous block's `out_channels` attribute; after each
iteration `out_channels` is doubled.  Returns the blocks in order and the
final value of the `out_channels` variable. -/
def mkDilLoop (q : DilLoopParams) :
    Nat → Nat → Nat → Nat → Option DilBlock → Except PyErr (List DilBlock × Nat)
  | 0, _, _, outC, _ => .ok ([], outC)
  | n + 1, idx, inC, outC, prev =>
    let inC := effIn prev idx inC
    match mkDilationBlock (loopDilCfg q idx inC outC) with
    | .error e => .error e
    | .ok db =>
      match mkDilLoop q n (idx + 1) inC (outC * 2) (some db) with
      | .error e => .error e
      | .ok (rest, finalOut) => .ok (db :: rest, finalOut)

/-- The first convolutional block of the network (lines 264-273). -/
def firstConvCfg (cfg : HighResNetCfg) (dims : Nat) : ConvBlockCfg :=
  { in_channels := cfg.input_channels
    out_channels := 2 ^ cfg.initial_out_channels_power
    dilation := 1
    dimensions := dims
    batch_norm := cfg.batch_norm
    instance_norm := cfg.instance_norm
    preactivation := false
    padding_mode := cfg.padding_mode }

/-- The optional dropout convolutional block (lines 303-312); note the
call does not pass `padding_mode`, so its default `'constant'` is used. -/
def dropoutConvCfg (cfg : HighResNetCfg) (dims inC : Nat) : ConvBlockCfg :=
  { in_channels := inC
    out_channels := 80
    dilation := 1
    dimensions := dims
    batch_norm := cfg.batch_norm
    instance_norm := cfg.instance_norm
    preactivation := false
    kernel_size := 1 }

/-- The classifier convolutional block (lines 317-328). -/
def classifierConvCfg (cfg : HighResNetCfg) (dims inC : Nat) : ConvBlockCfg :=
  { in_channels := inC
    out_channels := cfg.output_channels
    dilation := 1
    dimensions := dims
    batch_norm := cfg.batch_norm
    instance_norm := cfg.instance_norm
    preactivation := false
    kernel_size := 1
    activation := false
    padding_mode := cfg.padding_mode }

/-- The loop parameters extracted from a `HighResNet` configuration. -/
def dilLoopParams (cfg : HighResNetCfg) (dims : Nat) : DilLoopParams :=
  { dimensions := dims
    layers_per_residual_block := cfg.layers_per_residual_block
    residual_blocks_per_dilation := cfg.residual_blocks_per_dilation
    batch_norm := cfg.batch_norm
    instance_norm := cfg.instance_norm
    residual := cfg.residual
    padding_mode := cfg.padding_mode }

/-- The activation stored by lines 332-337: no branch matches an unknown
string and the attribute is left unset (`none`). -/
def chooseActivation (s : String) : Option ActKind :=
  if s = "sigmoid" then some .sigmoid
  else if s = "softmax" then some .softmax
  else if s = "none" then some .identity
  else none

/-- Mirrors `HighResNet.__init__` (lines 235-339): the
`assert dimensions in (2, 3)` (which fails for the default `None`), the
first convolutional block, the dilation-block loop, the halving of
`out_channels` after the loop, the optional dropout block pair, the
classifier, the output activation, and the assembled `self.block`. -/
def mkHighResNet (cfg : HighResNetCfg) : Except PyErr HighResNetM :=
  if ¬ (cfg.dimensions = some 2 ∨ cfg.dimensions = some 3) then
    .error .assertionError
  else
    let dims := cfg.dimensions.getD 0
    let initial_out_channels := 2 ^ cfg.initial_out_channels_power
    match mkConvBlock (firstConvCfg cfg dims) with
    | .error e => .error e
    | .ok first =>
      match mkDilLoop (dilLoopParams cfg dims) cfg.dilations 0
          initial_out_channels initial_out_channels none with
      | .error e => .error e
      | .ok (dils, outAfter) =>
        let out_channels := outAfter / 2
        let dropoutStep : Except PyErr (List HBlock × Nat) :=
          if cfg.add_dropout_layer then
            match mkConvBlock (dropoutConvCfg cfg dims out_channels) with
            | .error e => .error e
            | .ok dcb => .ok ([HBlock.convB dcb, HBlock.dropB], 80)
          else .ok ([], out_channels)
        match dropoutStep with
        | .error e => .error e
        | .ok (dropBlocks, clsIn) =>
          match mkConvBlock (classifierConvCfg cfg dims clsIn) with
          | .error e => .error e
          | .ok classifier =>
            .ok { in_channels := cfg.input_channels
                  out_channels := cfg.output_channels
                  layers_per_residual_block := cfg.layers_per_residual_block
                  residual_blocks_per_dilation := cfg.residual_blocks_per_dilation
                  dilations := cfg.dilations
                  outputs_activation := chooseActivation cfg.outputs_activation
                  block := HBlock.convB first :: (dils.map HBlock.dilB
                    ++ dropBlocks ++ [HBlock.convB classifier]) }

/-- Mirrors `HighResNet.receptive_field` (lines 356-369): `torch.arange(D)`
enumerates `0, ..., D-1` and the returned value is
`(3 - 1) + sum (B * N * 2 ^ (d + 1)) + 1`. -/
def HighResNetM.receptive_field (net : HighResNetM) : Nat :=
  let B := net.layers_per_residual_block
  let D := net.dilations
  let N := net.residual_blocks_per_dilation
  let input_output_diff :=
    (3 - 1) + ((List.range D).map (fun d => B * N * 2 ^ (d + 1))).sum
  input_output_diff + 1

/-- Shapes of the learned parameter tensors of a primitive layer, in
registration order, following the framework's layer definitions:
a convolution has a weight of shape `(outC, inC, k, ..., k)` (one `k` per
spatial dimension) and, when `bias=True`, a bias of shape `(outC,)`;
a batch-norm layer (default `affine=True`) has a weight and a bias of
shape `(c,)`; an instance-norm layer (default `affine=False`) and the
padding/ReLU layers have no learned parameters. -/
def Prim.parameterShapes : Prim → List (List Nat)
  | .convL inC outC k _ bias dims =>
    (outC :: inC :: List.replicate dims k) :: (if bias then [[outC]] else [])
  | .batchNormL c _ => [[c], [c]]
  | _ => []

/-- Parameter shapes of a `ConvolutionalBlock`. -/
def ConvBlock.parameterShapes (b : ConvBlock) : List (List Nat) :=
  (b.convolutional_block.map Prim.parameterShapes).flatten

/-- Parameter shapes of a `ResidualBlock`: the optional projection layer
(registered first, line 66) and then the convolutional stack. -/
def ResBlock.parameterShapes (b : ResBlock) : List (List Nat) :=
  (match b.change_dim_layer with
    | some p => p.parameterShapes
    | none => [])
  ++ (b.residual_block.map ConvBlock.parameterShapes).flatten

/-- Parameter shapes of a `DilationBlock`. -/
def DilBlock.parameterShapes (b : DilBlock) : List (List Nat) :=
  (b.dilation_block.map ResBlock.parameterShapes).flatten

/-- Parameter shapes of one entry of the top-level block list
(`nn.Dropout3d` has no learned parameters). -/
def HBlock.parameterShapes : HBlock → List (List Nat)
  | .convB b => b.parameterShapes
  | .dilB b => b.parameterShapes
  | .dropB => []

/-- All parameter shapes of the network, as traversed by
`self.parameters()`: every registered submodule lives inside
`self.block` (the activation modules have no parameters). -/
def HighResNetM.parameterShapes (net : HighResNetM) : List (List Nat) :=
  (net.block.map HBlock.parameterShapes).flatten

/-- Mirrors `HighResNet.num_parameters` (lines 351-354):
`sum(torch.prod(torch.tensor(p.shape)) for p in self.parameters())`. -/
def HighResNetM.num_parameters (net : HighResNetM) : Nat :=
  (net.parameterShapes.map List.prod).sum

/-- Receptive-field contribution of a primitive layer along the main
path: a stride-1 convolution with kernel `k` and dilation `d` widens the
receptive field by `(k - 1) * d`; padding, normalization and activation
layers leave it unchanged. -/
def Prim.rfContrib : Prim → Nat
  | .convL _ _ k dil _ _ => (k - 1) * dil
  | _ => 0

/-- Receptive-field contribution of a `ConvolutionalBlock`. -/
def ConvBlock.rfContrib (b : ConvBlock) : Nat :=
  (b.convolutional_block.map Prim.rfContrib).sum

/-- Receptive-field contribution of a `ResidualBlock`: the convolutional
stack is the widest path through the block (the shortcut is the identity,
zero padding, or a kernel-1 convolution, all of which contribute 0). -/
def ResBlock.rfContrib (b : ResBlock) : Nat :=
  (b.residual_block.map ConvBlock.rfContrib).sum

/-- Receptive-field contribution of a `DilationBlock`. -/
def DilBlock.rfContrib (b : DilBlock) : Nat :=
  (b.dilation_block.map ResBlock.rfContrib).sum

/-- Receptive-field contribution of a top-level block. -/
def HBlock.rfContrib : HBlock → Nat
  | .convB b => b.rfContrib
  | .dilB b => b.rfContrib
  | .dropB => 0

/-- Receptive field of the literal topology: for a stride-1 chain of
convolutions the receptive field is `1` plus the sum of the per-layer
widenings `(k - 1) * d`. -/
def topologyReceptiveField (blocks : List HBlock) : Nat :=
  1 + (blocks.map HBlock.rfContrib).sum

/-- Spatial size (along one spatial axis) after a primitive layer, for an
input of size `n`: padding by `a` on each side adds `2 * a`; a stride-1
convolution with kernel `k` and dilation `d` and no internal padding
removes `d * (k - 1)`; the other layers are size-preserving. -/
def primSpatial (p : Prim) (n : Int) : Int :=
  match p with
  | .padL a _ _ => n + 2 * (a : Int)
  | .convL _ _ k dil _ _ => n - (dil : Int) * ((k : Int) - 1)
  | _ => n

/-- Spatial size after a `ConvolutionalBlock`. -/
def ConvBlock.spatialOut (b : ConvBlock) (n : Int) : Int :=
  b.convolutional_block.foldl (fun m p => primSpatial p m) n

/-- Spatial size after a `ResidualBlock`: the output is the residual sum
`x + out`, whose shape is the shape of the stack output `out`. -/
def ResBlock.spatialOut (b : ResBlock) (n : Int) : Int :=
  b.residual_block.foldl (fun m cb => cb.spatialOut m) n

/-- Spatial size after a `DilationBlock`. -/
def DilBlock.spatialOut (b : DilBlock) (n : Int) : Int :=
  b.dilation_block.foldl (fun m rb => rb.spatialOut m) n

/-- Spatial size after a top-level block (`nn.Dropout3d` preserves it). -/
def HBlock.spatialOut : HBlock → Int → Int
  | .convB b, n => b.spatialOut n
  | .dilB b, n => b.spatialOut n
  | .dropB, n => n

/-- Spatial size after the whole block list. -/
def netSpatialOut (blocks : List HBlock) (n : Int) : Int :=
  blocks.foldl (fun m b => b.spatialOut m) n

/-- The action of the stored output-activation module on a tensor of
type `τ`, given interpretations of `nn.Sigmoid` and `nn.Softmax`
(`nn.Identity` is the identity). -/
def applyActivation {τ : Type} (sigF softF : τ → τ) : ActKind → τ → τ
  | .sigmoid => sigF
  | .softmax => softF
  | .identity => id

/-- Application of the `nn.Sequential` block list to an input: each
block's forward is applied in order, given an interpretation `applyB` of
a single block's forward computation. -/
def seqForward {τ : Type} (applyB : HBlock → τ → τ) (blocks : List HBlock) (x : τ) : τ :=
  blocks.foldl (fun t b => applyB b t) x

/-- Mirrors `HighResNet.forward` (lines 341-349):
`self.outputs_activation(self.block(x))`.  Python evaluates the callee
`self.outputs_activation` before the argument, so when the attribute was
never set the call raises `AttributeError` before any block runs. -/
def netForward {τ : Type} (applyB : HBlock → τ → τ) (sigF softF : τ → τ)
    (net : HighResNetM) (x : τ) : Except PyErr τ :=
  match net.outputs_activation with
  | none => .error .attributeError
  | some a => .ok (applyActivation sigF softF a (seqForward applyB net.block x))

/-- State-passing form of `HighResNet.forward`: the body performs no
assignment to any attribute of `self`, so the returned model state is the
received one. -/
def netForwardState {τ : Type} (applyB : HBlock → τ → τ) (sigF softF : τ → τ)
    (net : HighResNetM) (x : τ) : Except PyErr (τ × HighResNetM) :=
  match net.outputs_activation with
  | none => .error .attributeError
  | some a => .ok (applyActivation sigF softF a (seqForward applyB net.block x), net)

/-- A concrete batch tensor: a list of batch elements, each a list of
channels, each a flattened list of spatial entries (integer-valued for
executability). -/
abbrev T3 : Type := List (List (List Int))

/-- `x.shape[CHANNELS_DIM]`: the channel count (of the first batch
element, which equals every element's count for a well-formed tensor). -/
def channelsOf (x : T3) : Nat := (x.headD []).length

/-- The flattened spatial size `prod(x.shape[2:])`. -/
def spatialSizeOf (x : T3) : Nat := ((x.headD []).headD []).length

/-- Pointwise tensor addition (the framework's `+` on same-shape
tensors). -/
def addT (x y : T3) : T3 :=
  List.zipWith (List.zipWith (List.zipWith (· + ·))) x y

/-- The `zeros_half` tensor of one batch element (line 112): the channel
dimension is `diff_channels // 2` (Python floor division) and the spatial
dimensions are those of `x`. -/
def zeroChannels (x : T3) (outC : Nat) : List (List Int) :=
  List.replicate ((outC - channelsOf x) / 2) (List.replicate (spatialSizeOf x) 0)

/-- Mirrors lines 107-115 of `ResidualBlock.forward`: build `zeros_half`
from `x.new_zeros(batch_size, diff_channels // 2, *spatial_dims)` and
return `torch.cat((zeros_half, x, zeros_half), dim=CHANNELS_DIM)`.  When
`out_channels < x_channels` the requested zero tensor has a negative
channel dimension, which the framework rejects at run time. -/
def padShortcut (x : T3) (outC : Nat) : Except PyErr T3 :=
  if outC < channelsOf x then .error .runtimeError
  else .ok (x.map (fun bi => zeroChannels x outC ++ bi ++ zeroChannels x outC))

/-- Mirrors `ResidualBlock.forward` (lines 89-117), with the forward
computations of the stored submodules abstracted: `stackF` interprets
`self.residual_block` and `projF` interprets `self.change_dim_layer`. -/
def residualBlockForward (rb : ResBlock) (stackF projF : T3 → T3) (x : T3) :
    Except PyErr T3 :=
  let out := stackF x
  if rb.residual then
    if rb.change_dimension then
      if rb.residual_type = "project" then .ok (addT (projF x) out)
      else if rb.residual_type = "pad" then
        match padShortcut x (channelsOf out) with
        | .error e => .error e
        | .ok xPadded => .ok (addT xPadded out)
      else .ok (addT x out)
    else .ok (addT x out)
  else .ok out

/-- Validity of a `ConvolutionalBlock` configuration: the two asserted
conditions, plus boundness of `padding_instance` when it is used. -/
def convOK (c : ConvBlockCfg) : Prop :=
  c.padding_mode ∈ PADDING_MODES ∧ ¬ (c.batch_norm ∧ c.instance_norm)
    ∧ (1 < c.kernel_size → c.dimensions = 2 ∨ c.dimensions = 3)

/-- The convolutional stack of a `ResidualBlock`, as a total function. -/
def convStackList (c : ResBlockCfg) : Nat → Nat → List ConvBlock
  | 0, _ => []
  | n + 1, inC => ⟨convBlockLayers (stackConvCfg c inC)⟩ :: convStackList c n c.out_channels

/-- The `ResidualBlock` built for a valid configuration, as a total
function. -/
def buildResBlock (c : ResBlockCfg) : ResBlock :=
  { residual := c.residual
    change_dimension := decide (c.in_channels ≠ c.out_channels)
    residual_type := c.residual_type
    dimensions := c.dimensions
    change_dim_layer :=
      if c.in_channels ≠ c.out_channels ∧ c.residual_type = "project" then
        some (.convL c.in_channels c.out_channels 1 c.dilation false c.dimensions)
      else none
    residual_block := convStackList c c.num_layers c.in_channels }

/-- The residual-block stack of a `DilationBlock`, as a total function. -/
def resStackList (c : DilBlockCfg) : Nat → Nat → List ResBlock
  | 0, _ => []
  | n + 1, inC => buildResBlock (dilResCfg c inC) :: resStackList c n c.out_channels

/-- The `DilationBlock` built for a valid configuration, as a total
function. -/
def buildDilBlock (c : DilBlockCfg) : DilBlock :=
  { in_channels := c.in_channels
    out_channels := c.out_channels
    dilation_block := resStackList c c.num_residual_blocks c.in_channels }

/-- The dilation-block loop, as a total function. -/
def buildDilLoop (q : DilLoopParams) :
    Nat → Nat → Nat → Nat → Option DilBlock → List DilBlock × Nat
  | 0, _, _, outC, _ => ([], outC)
  | n + 1, idx, inC, outC, prev =>
    let inC := effIn prev idx inC
    let db := buildDilBlock (loopDilCfg q idx inC outC)
    let r := buildDilLoop q n (idx + 1) inC (outC * 2) (some db)
    (db :: r.1, r.2)

/-- The `HighResNet` built for a valid configuration, as a total
function of the configuration and the unwrapped `dimensions`. -/
def buildNet (cfg : HighResNetCfg) (dims : Nat) : HighResNetM :=
  let initial_out_channels := 2 ^ cfg.initial_out_channels_power
  let first : ConvBlock := ⟨convBlockLayers (firstConvCfg cfg dims)⟩
  let r := buildDilLoop (dilLoopParams cfg dims) cfg.dilations 0
    initial_out_channels initial_out_channels none
  let out_channels := r.2 / 2
  let dropBlocks : List HBlock :=
    if cfg.add_dropout_layer then
      [HBlock.convB ⟨convBlockLayers (dropoutConvCfg cfg dims out_channels)⟩, HBlock.dropB]
    else []
  let clsIn := if cfg.add_dropout_layer then 80 else out_channels
  let classifier : ConvBlock := ⟨convBlockLayers (classifierConvCfg cfg dims clsIn)⟩
  { in_channels := cfg.input_channels
    out_channels := cfg.output_channels
    layers_per_residual_block := cfg.layers_per_residual_block
    residual_blocks_per_dilation := cfg.residual_blocks_per_dilation
    dilations := cfg.dilations
    outputs_activation := chooseActivation cfg.outputs_activation
    block := HBlock.convB first :: (r.1.map HBlock.dilB ++ dropBlocks
      ++ [HBlock.convB classifier]) }

/-- The checks a `HighResNet` configuration must pass for construction to
succeed: its own `dimensions` assert, and the asserts of every
`ConvolutionalBlock` it builds (which all share the configuration's
normalization flags, and all use its `padding_mode` or the always-valid
default). -/
def cfgChecks (cfg : HighResNetCfg) : Prop :=
  (cfg.dimensions = some 2 ∨ cfg.dimensions = some 3)
    ∧ cfg.padding_mode ∈ PADDING_MODES
    ∧ ¬ (cfg.batch_norm ∧ cfg.instance_norm)

/-- Learned parameters of a normalization layer on `ch` channels: a
batch-norm layer has an affine weight and bias (`2 * ch` scalars), an
instance-norm layer (or no normalization) has none. -/
def normParamCount (bn : Bool) (ch : Nat) : Nat := if bn then 2 * ch else 0

/-- Scalar learned parameters of one convolutional block of the literal
topology: the normalization affine parameters (on the input channels for
a preactivation block, on the output channels otherwise), the convolution
kernel of `outC * inC * k ^ dims` weights, and a bias of `outC` entries
exactly when no normalization is used. -/
def specConvCount (bn inorm : Bool) (dims inC outC k : Nat) (preact : Bool) : Nat :=
  normParamCount bn (if preact then inC else outC) + outC * inC * k ^ dims
    + (if bn || inorm then 0 else outC)

/-- Scalar learned parameters of one residual block of the literal
topology: `B` preactivation kernel-3 convolutional blocks, the first
mapping `inC` to `outC` channels and the rest `outC` to `outC` (the pad
shortcut used throughout the network adds no parameters). -/
def specResCount (bn inorm : Bool) (dims B inC outC : Nat) : Nat :=
  match B with
  | 0 => 0
  | b + 1 => specConvCount bn inorm dims inC outC 3 true
      + b * specConvCount bn inorm dims outC outC 3 true

/-- Scalar learned parameters of one dilation block of the literal
topology: `N` residual blocks, the first mapping `inC` to `outC` channels
and the rest `outC` to `outC`. -/
def specDilCount (bn inorm : Bool) (dims B N inC outC : Nat) : Nat :=
  match N with
  | 0 => 0
  | n + 1 => specResCount bn inorm dims B inC outC
      + n * specResCount bn inorm dims B outC outC

/-- Scalar learned parameters of the sequence of dilation blocks of the
literal topology: block `d` maps the previous block's output channels to
`outC * 2 ^ d` channels (parameter counts do not depend on the dilation
factor itself). -/
def specDilSum (bn inorm : Bool) (dims B N : Nat) : Nat → Nat → Nat → Nat
  | 0, _, _ => 0
  | n + 1, inC, outC => specDilCount bn inorm dims B N inC outC
      + specDilSum bn inorm dims B N n outC (outC * 2)

/-- Scalar learned parameters of the literal topology built for a
configuration: the initial kernel-3 block from the input channels to
`2 ^ initial_out_channels_power`, the dilation blocks with doubling
channel counts, and the kernel-1 classifier (preceded, when requested, by
the kernel-1 dropout block to 80 channels). -/
def specParamCount (cfg : HighResNetCfg) (dims : Nat) : Nat :=
  let I := 2 ^ cfg.initial_out_channels_power
  let bn := cfg.batch_norm
  let inorm := cfg.instance_norm
  let preCls := I * 2 ^ cfg.dilations / 2
  specConvCount bn inorm dims cfg.input_channels I 3 false
    + specDilSum bn inorm dims cfg.layers_per_residual_block
        cfg.residual_blocks_per_dilation cfg.dilations I I
    + (if cfg.add_dropout_layer then
        specConvCount bn inorm dims preCls 80 1 false
          + specConvCount bn inorm dims 80 cfg.output_channels 1 false
      else specConvCount bn inorm dims preCls cfg.output_channels 1 false)

lemma mkConvBlock_eq_ok (c : ConvBlockCfg) (h : convOK c) :
    mkConvBlock c = .ok ⟨convBlockLayers c⟩ := by
  obtain ⟨h1, h2, h3⟩ := h
  unfold mkConvBlock
  rw [if_neg (not_not_intro h1), if_neg h2, if_neg (by tauto)]

lemma mkConvBlock_ok_inv (c : ConvBlockCfg) (cb : ConvBlock)
    (h : mkConvBlock c = .ok cb) :
    c.padding_mode ∈ PADDING_MODES ∧ ¬ (c.batch_norm ∧ c.instance_norm)
      ∧ cb = ⟨convBlockLayers c⟩ := by
  unfold mkConvBlock at h
  split at h
  · exact absurd h (by simp)
  · split at h
    · exact absurd h (by simp)
    · split at h
      · exact absurd h (by simp)
      · refine ⟨by tauto, by assumption, by injection h with h; exact h.symm⟩

/-- Flag-level validity of a `ResidualBlock` configuration (sound for any
channel counts and any stack length). -/
def resFlagsOK (c : ResBlockCfg) : Prop :=
  c.padding_mode ∈ PADDING_MODES ∧ ¬ (c.batch_norm ∧ c.instance_norm)
    ∧ (c.dimensions = 2 ∨ c.dimensions = 3)

lemma stackConvCfg_ok (c : ResBlockCfg) (inC : Nat) (h : resFlagsOK c) :
    convOK (stackConvCfg c inC) := by
  obtain ⟨h1, h2, h3⟩ := h
  exact ⟨h1, h2, fun _ => h3⟩

lemma mkConvStack_eq_ok (c : ResBlockCfg) (h : resFlagsOK c) :
    ∀ n inC, mkConvStack c n inC = .ok (convStackList c n inC) := by
  intro n
  induction n with
  | zero => intro inC; rfl
  | succ m ih =>
    intro inC
    rw [mkConvStack, mkConvBlock_eq_ok _ (stackConvCfg_ok c inC h), ih]
    rfl

lemma mkResidualBlock_eq_ok (c : ResBlockCfg)
    (ht : c.residual_type = "pad" ∨ c.residual_type = "project")
    (h : resFlagsOK c) :
    mkResidualBlock c = .ok (buildResBlock c) := by
  unfold mkResidualBlock
  rw [if_neg (not_not_intro ht), mkConvStack_eq_ok c h]
  rfl

/-- Flag-level validity of a `DilationBlock` configuration. -/
def dilFlagsOK (c : DilBlockCfg) : Prop :=
  c.padding_mode ∈ PADDING_MODES ∧ ¬ (c.batch_norm ∧ c.instance_norm)
    ∧ (c.dimensions = 2 ∨ c.dimensions = 3)

lemma dilResCfg_flags (c : DilBlockCfg) (inC : Nat) (h : dilFlagsOK c) :
    resFlagsOK (dilResCfg c inC) := h

lemma mkResStack_eq_ok (c : DilBlockCfg) (h : dilFlagsOK c) :
    ∀ n inC, mkResStack c n inC = .ok (resStackList c n inC) := by
  intro n
  induction n with
  | zero => intro inC; rfl
  | succ m ih =>
    intro inC
    rw [mkResStack, mkResidualBlock_eq_ok _ (Or.inl rfl) (dilResCfg_flags c inC h), ih]
    rfl

lemma mkDilationBlock_eq_ok (c : DilBlockCfg) (h : dilFlagsOK c) :
    mkDilationBlock c = .ok (buildDilBlock c) := by
  unfold mkDilationBlock
  rw [mkResStack_eq_ok c h]
  rfl

/-- Flag-level validity of the dilation-loop parameters. -/
def loopFlagsOK (q : DilLoopParams) : Prop :=
  q.padding_mode ∈ PADDING_MODES ∧ ¬ (q.batch_norm ∧ q.instance_norm)
    ∧ (q.dimensions = 2 ∨ q.dimensions = 3)

lemma loopDilCfg_flags (q : DilLoopParams) (idx inC outC : Nat)
    (h : loopFlagsOK q) : dilFlagsOK (loopDilCfg q idx inC outC) := h

lemma mkDilLoop_eq_ok (q : DilLoopParams) (h : loopFlagsOK q) :
    ∀ n idx inC outC prev,
      mkDilLoop q n idx inC outC prev = .ok (buildDilLoop q n idx inC outC prev) := by
  intro n
  induction n with
  | zero => intro idx inC outC prev; rfl
  | succ m ih =>
    intro idx inC outC prev
    simp only [mkDilLoop, buildDilLoop,
      mkDilationBlock_eq_ok _ (loopDilCfg_flags q idx _ outC h), ih]

lemma mkHighResNet_eq_ok (cfg : HighResNetCfg) (h : cfgChecks cfg) :
    mkHighResNet cfg = .ok (buildNet cfg (cfg.dimensions.getD 0)) := by
  obtain ⟨hd, hp, hn⟩ := h
  have hdims : cfg.dimensions.getD 0 = 2 ∨ cfg.dimensions.getD 0 = 3 := by
    rcases hd with hd | hd <;> rw [hd] <;> simp
  have hfirst := mkConvBlock_eq_ok (firstConvCfg cfg (cfg.dimensions.getD 0))
    ⟨hp, hn, fun _ => hdims⟩
  have hloop := mkDilLoop_eq_ok (dilLoopParams cfg (cfg.dimensions.getD 0))
    ⟨hp, hn, hdims⟩ cfg.dilations 0 (2 ^ cfg.initial_out_channels_power)
    (2 ^ cfg.initial_out_channels_power) none
  have hdrop := fun inC => mkConvBlock_eq_ok
    (dropoutConvCfg cfg (cfg.dimensions.getD 0) inC)
    ⟨by simp [dropoutConvCfg, PADDING_MODES], hn, by simp [dropoutConvCfg]⟩
  have hcls := fun inC => mkConvBlock_eq_ok
    (classifierConvCfg cfg (cfg.dimensions.getD 0) inC)
    ⟨hp, hn, by simp [classifierConvCfg]⟩
  simp only [mkHighResNet, if_neg (not_not_intro hd), hfirst, hloop, hdrop, hcls, buildNet]
  by_cases hdropl : cfg.add_dropout_layer <;> simp [hdropl, hdrop, hcls]

lemma mkHighResNet_ok_iff (cfg : HighResNetCfg) (net : HighResNetM) :
    mkHighResNet cfg = .ok net
      ↔ cfgChecks cfg ∧ net = buildNet cfg (cfg.dimensions.getD 0) := by
  constructor
  · intro h
    have hchecks : cfgChecks cfg := by
      simp only [mkHighResNet] at h
      split at h
      · exact absurd h (by simp)
      · refine ⟨by tauto, ?_⟩
        rcases hfc : mkConvBlock (firstConvCfg cfg (cfg.dimensions.getD 0)) with e | first
        · rw [hfc] at h; exact absurd h (by simp)
        · have := mkConvBlock_ok_inv _ _ hfc
          exact ⟨this.1, this.2.1⟩
    rw [mkHighResNet_eq_ok cfg hchecks] at h
    exact ⟨hchecks, by injection h with h; exact h.symm⟩
  · rintro ⟨hchecks, rfl⟩
    exact mkHighResNet_eq_ok cfg hchecks

lemma convBlock_rfContrib (c : ConvBlockCfg) :
    ConvBlock.rfContrib ⟨convBlockLayers c⟩ = (c.kernel_size - 1) * c.dilation := by
  simp only [ConvBlock.rfContrib, convBlockLayers, normLayers]
  split_ifs <;> simp [Prim.rfContrib]

lemma convStackList_rfContrib (c : ResBlockCfg) :
    ∀ n inC, ((convStackList c n inC).map ConvBlock.rfContrib).sum
      = n * (2 * c.dilation) := by
  intro n
  induction n with
  | zero => intro inC; simp [convStackList]
  | succ m ih =>
    intro inC
    simp only [convStackList, List.map_cons, List.sum_cons, ih, convBlock_rfContrib,
      stackConvCfg]
    ring

lemma buildResBlock_rfContrib (c : ResBlockCfg) :
    (buildResBlock c).rfContrib = c.num_layers * (2 * c.dilation) := by
  simp only [ResBlock.rfContrib, buildResBlock, convStackList_rfContrib]

lemma resStackList_rfContrib (c : DilBlockCfg) :
    ∀ n inC, ((resStackList c n inC).map ResBlock.rfContrib).sum
      = n * (c.layers_per_block * (2 * c.dilation)) := by
  intro n
  induction n with
  | zero => intro inC; simp [resStackList]
  | succ m ih =>
    intro inC
    simp only [resStackList, List.map_cons, List.sum_cons, ih, buildResBlock_rfContrib,
      dilResCfg]
    ring

lemma buildDilBlock_rfContrib (c : DilBlockCfg) :
    (buildDilBlock c).rfContrib
      = c.num_residual_blocks * (c.layers_per_block * (2 * c.dilation)) := by
  simp only [DilBlock.rfContrib, buildDilBlock, resStackList_rfContrib]

lemma buildDilLoop_rfContrib (q : DilLoopParams) :
    ∀ n idx inC outC prev,
      (((buildDilLoop q n idx inC outC prev).1).map DilBlock.rfContrib).sum
        = ((List.range n).map (fun j =>
            q.layers_per_residual_block * q.residual_blocks_per_dilation
              * 2 ^ (idx + j + 1))).sum := by
  intro n
  induction n with
  | zero => intro idx inC outC prev; rfl
  | succ m ih =>
    intro idx inC outC prev
    rw [List.range_succ_eq_map]
    simp only [buildDilLoop, List.map_cons, List.sum_cons, ih, buildDilBlock_rfContrib,
      loopDilCfg, List.map_map]
    have hmap : ∀ j ∈ List.range m,
        ((fun j => q.layers_per_residual_block * q.residual_blocks_per_dilation
            * 2 ^ (idx + j + 1)) ∘ Nat.succ) j
          = q.layers_per_residual_block * q.residual_blocks_per_dilation
              * 2 ^ (idx + 1 + j + 1) := by
      intro j _
      simp only [Function.comp_apply]
      rw [show idx + Nat.succ j + 1 = idx + 1 + j + 1 by omega]
    rw [List.map_congr_left hmap]
    rw [show idx + 0 + 1 = idx + 1 by omega]
    ring

lemma buildDilLoop_out (q : DilLoopParams) :
    ∀ n idx inC outC prev, (buildDilLoop q n idx inC outC prev).2 = outC * 2 ^ n := by
  intro n
  induction n with
  | zero => intro idx inC outC prev; simp [buildDilLoop]
  | succ m ih =>
    intro idx inC outC prev
    simp only [buildDilLoop, ih]
    ring

/-- Total scalar count of a list of parameter-tensor shapes: the sum of
the products of the dimensions. -/
def paramCount (shapes : List (List Nat)) : Nat := (shapes.map List.prod).sum

lemma paramCount_append (a b : List (List Nat)) :
    paramCount (a ++ b) = paramCount a + paramCount b := by
  simp [paramCount]

lemma paramCount_flatten_map {A : Type} (f : A → List (List Nat)) (l : List A) :
    paramCount ((l.map f).flatten) = (l.map (fun x => paramCount (f x))).sum := by
  simp [paramCount, List.map_flatten, List.sum_flatten, List.map_map, Function.comp_def]

lemma convBlock_paramCount (c : ConvBlockCfg) :
    paramCount (ConvBlock.parameterShapes ⟨convBlockLayers c⟩)
      = specConvCount c.batch_norm c.instance_norm c.dimensions c.in_channels
          c.out_channels c.kernel_size c.preactivation := by
  have hconv : ∀ bias : Bool, paramCount (Prim.parameterShapes
      (.convL c.in_channels c.out_channels c.kernel_size c.dilation bias c.dimensions))
      = c.out_channels * c.in_channels * c.kernel_size ^ c.dimensions
        + (if bias then c.out_channels else 0) := by
    intro bias
    cases bias <;> simp [Prim.parameterShapes, paramCount, List.prod_replicate]
      <;> ring
  have hnorm : ∀ ch, ((normLayers c ch).map (fun p => paramCount p.parameterShapes)).sum
      = normParamCount c.batch_norm ch := by
    intro ch
    rcases hbn : c.batch_norm <;> rcases hin : c.instance_norm
      <;> simp [normLayers, hbn, hin, normParamCount, Prim.parameterShapes, paramCount,
        two_mul]
  have hrelu : ((if c.activation then [Prim.reluL] else []).map
      (fun p => paramCount p.parameterShapes)).sum = 0 := by
    split_ifs <;> simp [Prim.parameterShapes, paramCount]
  have hpad : ((if 1 < c.kernel_size then
        [Prim.padL c.dilation c.padding_mode c.dimensions] else []).map
      (fun p => paramCount p.parameterShapes)).sum = 0 := by
    split_ifs <;> simp [Prim.parameterShapes, paramCount]
  rcases hpre : c.preactivation <;> rcases hbn : c.batch_norm
    <;> rcases hin : c.instance_norm
    <;> simp [ConvBlock.parameterShapes, paramCount_flatten_map, paramCount_append,
      convBlockLayers, hpre, hbn, hin, hnorm, hrelu, hpad, hconv, specConvCount,
      normParamCount]
    <;> ring

lemma convStackList_paramCount_const (c : ResBlockCfg) :
    ∀ n, ((convStackList c n c.out_channels).map
        (fun b => paramCount b.parameterShapes)).sum
      = n * specConvCount c.batch_norm c.instance_norm c.dimensions
          c.out_channels c.out_channels 3 true := by
  intro n
  induction n with
  | zero => simp [convStackList]
  | succ m ih =>
    simp only [convStackList, List.map_cons, List.sum_cons, ih, convBlock_paramCount,
      stackConvCfg]
    ring

lemma convStackList_paramCount (c : ResBlockCfg) (n inC : Nat) :
    ((convStackList c n inC).map (fun b => paramCount b.parameterShapes)).sum
      = specResCount c.batch_norm c.instance_norm c.dimensions n inC c.out_channels := by
  cases n with
  | zero => simp [convStackList, specResCount]
  | succ m =>
    simp only [convStackList, List.map_cons, List.sum_cons,
      convStackList_paramCount_const, convBlock_paramCount, stackConvCfg, specResCount]

lemma buildResBlock_paramCount (c : ResBlockCfg) (h : c.residual_type = "pad") :
    paramCount (buildResBlock c).parameterShapes
      = specResCount c.batch_norm c.instance_norm c.dimensions c.num_layers
          c.in_channels c.out_channels := by
  have hne : ¬ (c.in_channels ≠ c.out_channels ∧ c.residual_type = "project") := by
    rintro ⟨-, hp⟩
    rw [h] at hp
    exact absurd hp (by decide)
  simp only [ResBlock.parameterShapes, buildResBlock, if_neg hne, List.nil_append,
    paramCount_flatten_map]
  exact convStackList_paramCount c c.num_layers c.in_channels

lemma resStackList_paramCount_const (c : DilBlockCfg) :
    ∀ n, ((resStackList c n c.out_channels).map
        (fun b => paramCount b.parameterShapes)).sum
      = n * specResCount c.batch_norm c.instance_norm c.dimensions
          c.layers_per_block c.out_channels c.out_channels := by
  intro n
  induction n with
  | zero => simp [resStackList]
  | succ m ih =>
    simp only [resStackList, List.map_cons, List.sum_cons, ih]
    rw [buildResBlock_paramCount _ rfl]
    simp only [dilResCfg]
    ring

lemma resStackList_paramCount (c : DilBlockCfg) (n inC : Nat) :
    ((resStackList c n inC).map (fun b => paramCount b.parameterShapes)).sum
      = specDilCount c.batch_norm c.instance_norm c.dimensions
          c.layers_per_block n inC c.out_channels := by
  cases n with
  | zero => simp [resStackList, specDilCount]
  | succ m =>
    simp only [resStackList, List.map_cons, List.sum_cons,
      resStackList_paramCount_const, specDilCount]
    rw [buildResBlock_paramCount _ rfl]
    simp only [dilResCfg]

lemma buildDilBlock_paramCount (c : DilBlockCfg) :
    paramCount (buildDilBlock c).parameterShapes
      = specDilCount c.batch_norm c.instance_norm c.dimensions
          c.layers_per_block c.num_residual_blocks c.in_channels c.out_channels := by
  simp only [DilBlock.parameterShapes, buildDilBlock, paramCount_flatten_map]
  exact resStackList_paramCount c c.num_residual_blocks c.in_channels

lemma buildDilLoop_paramCount (q : DilLoopParams) :
    ∀ n idx inC outC prev,
      (((buildDilLoop q n idx inC outC prev).1).map
          (fun b => paramCount b.parameterShapes)).sum
        = specDilSum q.batch_norm q.instance_norm q.dimensions
            q.layers_per_residual_block q.residual_blocks_per_dilation n
            (effIn prev idx inC) outC := by
  intro n
  induction n with
  | zero => intro idx inC outC prev; simp [buildDilLoop, specDilSum]
  | succ m ih =>
    intro idx inC outC prev
    simp only [buildDilLoop, List.map_cons, List.sum_cons, ih,
      buildDilBlock_paramCount, loopDilCfg, specDilSum]
    congr 1
    simp [effIn, buildDilBlock, loopDilCfg]

lemma convBlock_spatialOut (c : ConvBlockCfg)
    (hk : c.kernel_size = 3 ∨ c.kernel_size = 1) (n : Int) :
    ConvBlock.spatialOut ⟨convBlockLayers c⟩ n = n := by
  have hnorm : ∀ (ch : Nat) (m : Int),
      (normLayers c ch).foldl (fun m p => primSpatial p m) m = m := by
    intro ch m
    rcases hbn : c.batch_norm <;> rcases hin : c.instance_norm
      <;> simp [normLayers, hbn, hin, primSpatial]
  have hpre : ∀ (m : Int) (b : Bool) (ch : Nat),
      ((if b then normLayers c ch ++ (if c.activation then [Prim.reluL] else [])
          else []).foldl (fun m p => primSpatial p m) m) = m := by
    intro m b ch
    have hr : ∀ (m : Int), primSpatial Prim.reluL m = m := fun _ => rfl
    rcases b <;> rcases hac : c.activation
      <;> simp [List.foldl_append, hnorm, hac, hr]
  simp only [ConvBlock.spatialOut, convBlockLayers, List.foldl_append, hpre]
  rcases hk with hk | hk <;> simp [hk, primSpatial] <;> ring

lemma convStackList_spatialOut (c : ResBlockCfg) :
    ∀ n inC (m : Int),
      (convStackList c n inC).foldl (fun m cb => ConvBlock.spatialOut cb m) m = m := by
  intro n
  induction n with
  | zero => intro inC m; rfl
  | succ k ih =>
    intro inC m
    simp only [convStackList, List.foldl_cons]
    rw [convBlock_spatialOut _ (Or.inl rfl), ih]

lemma buildResBlock_spatialOut (c : ResBlockCfg) (m : Int) :
    (buildResBlock c).spatialOut m = m := by
  simp only [ResBlock.spatialOut, buildResBlock]
  exact convStackList_spatialOut c c.num_layers c.in_channels m

lemma resStackList_spatialOut (c : DilBlockCfg) :
    ∀ n inC (m : Int),
      (resStackList c n inC).foldl (fun m rb => ResBlock.spatialOut rb m) m = m := by
  intro n
  induction n with
  | zero => intro inC m; rfl
  | succ k ih =>
    intro inC m
    simp only [resStackList, List.foldl_cons, buildResBlock_spatialOut]
    rw [ih]

lemma buildDilBlock_spatialOut (c : DilBlockCfg) (m : Int) :
    (buildDilBlock c).spatialOut m = m := by
  simp only [DilBlock.spatialOut, buildDilBlock]
  exact resStackList_spatialOut c c.num_residual_blocks c.in_channels m

lemma buildDilLoop_spatialOut (q : DilLoopParams) :
    ∀ n idx inC outC prev (m : Int),
      ((buildDilLoop q n idx inC outC prev).1).foldl
        (fun m db => DilBlock.spatialOut db m) m = m := by
  intro n
  induction n with
  | zero => intro idx inC outC prev m; rfl
  | succ k ih =>
    intro idx inC outC prev m
    simp only [buildDilLoop, List.foldl_cons, buildDilBlock_spatialOut]
    rw [ih]

lemma hblock_spatial_conv (b : ConvBlock) (m : Int) :
    HBlock.spatialOut (HBlock.convB b) m = b.spatialOut m := rfl

lemma hblock_spatial_dil (b : DilBlock) (m : Int) :
    HBlock.spatialOut (HBlock.dilB b) m = b.spatialOut m := rfl

lemma hblock_spatial_drop (m : Int) : HBlock.spatialOut HBlock.dropB m = m := rfl

lemma buildNet_spatialOut (cfg : HighResNetCfg) (dims : Nat) (n : Int) :
    netSpatialOut (buildNet cfg dims).block n = n := by
  have hfirst := fun (m : Int) => convBlock_spatialOut (firstConvCfg cfg dims) (Or.inl rfl) m
  have hcls := fun (ccIn : Nat) (m : Int) =>
    convBlock_spatialOut (classifierConvCfg cfg dims ccIn) (Or.inr rfl) m
  have hdropc := fun (ccIn : Nat) (m : Int) =>
    convBlock_spatialOut (dropoutConvCfg cfg dims ccIn) (Or.inr rfl) m
  have hloop := buildDilLoop_spatialOut (dilLoopParams cfg dims)
  rcases hdrop : cfg.add_dropout_layer
    <;> simp [netSpatialOut, buildNet, hdrop, List.foldl_append, List.foldl_map,
      hblock_spatial_conv, hblock_spatial_dil, hblock_spatial_drop, hfirst, hcls, hdropc,
      hloop]

lemma hblock_params_conv (b : ConvBlock) :
    HBlock.parameterShapes (HBlock.convB b) = b.parameterShapes := rfl

lemma hblock_params_dil (b : DilBlock) :
    HBlock.parameterShapes (HBlock.dilB b) = b.parameterShapes := rfl

lemma buildNet_num_parameters (cfg : HighResNetCfg) (dims : Nat) :
    (buildNet cfg dims).num_parameters = specParamCount cfg dims := by
  have hnum : (buildNet cfg dims).num_parameters
      = paramCount (buildNet cfg dims).parameterShapes := rfl
  rw [hnum]
  have hout := buildDilLoop_out (dilLoopParams cfg dims) cfg.dilations 0
    (2 ^ cfg.initial_out_channels_power) (2 ^ cfg.initial_out_channels_power) none
  have hloop := buildDilLoop_paramCount (dilLoopParams cfg dims) cfg.dilations 0
    (2 ^ cfg.initial_out_channels_power) (2 ^ cfg.initial_out_channels_power) none
  simp only [dilLoopParams, effIn] at hloop hout
  rcases hdrop : cfg.add_dropout_layer
    <;> simp [HighResNetM.parameterShapes, buildNet, dilLoopParams, hdrop,
      paramCount_flatten_map, paramCount_append, List.map_map, Function.comp_def,
      HBlock.parameterShapes, convBlock_paramCount, hloop, hout, firstConvCfg,
      classifierConvCfg, dropoutConvCfg, specParamCount]
    <;> ring

lemma mkResidualBlock_ok_inv (c : ResBlockCfg) (rb : ResBlock)
    (h : mkResidualBlock c = .ok rb) :
    (c.residual_type = "pad" ∨ c.residual_type = "project")
      ∧ ∃ stack, mkConvStack c c.num_layers c.in_channels = .ok stack
        ∧ rb = { residual := c.residual
                 change_dimension := decide (c.in_channels ≠ c.out_channels)
                 residual_type := c.residual_type
                 dimensions := c.dimensions
                 change_dim_layer :=
                   if c.in_channels ≠ c.out_channels ∧ c.residual_type = "project" then
                     some (.convL c.in_channels c.out_channels 1 c.dilation false
                       c.dimensions)
                   else none
                 residual_block := stack } := by
  unfold mkResidualBlock at h
  split at h
  · exact absurd h (by simp)
  · rename_i hty
    rcases hcs : mkConvStack c c.num_layers c.in_channels with e | stack
    · rw [hcs] at h
      exact absurd h (by simp)
    · rw [hcs] at h
      injection h with h
      exact ⟨by tauto, stack, rfl, h.symm⟩

/-- A small valid example configuration used by the concrete witnesses. -/
def exCfg : HighResNetCfg :=
  { input_channels := 1
    output_channels := 2
    initial_out_channels_power := 1
    dimensions := some 3
    layers_per_residual_block := 1
    residual_blocks_per_dilation := 1
    dilations := 2 }

/-- The network the example configuration builds. -/
def exNet : HighResNetM := buildNet exCfg 3

/-- A valid standalone convolutional-block configuration. -/
def goodConvCfg : ConvBlockCfg :=
  { in_channels := 1, out_channels := 4, dilation := 2, dimensions := 3 }

/-- A convolutional-block configuration passing both asserts but with
`dimensions = 1`. -/
def badDimsCfg : ConvBlockCfg :=
  { in_channels := 1, out_channels := 1, dilation := 1, dimensions := 1 }

/-- A residual-block configuration with an invalid `residual_type`. -/
def badResCfg : ResBlockCfg :=
  { in_channels := 1, out_channels := 1, num_layers := 1, dilation := 1,
    dimensions := 3, residual_type := "relu" }

/-- A valid residual-block configuration. -/
def goodResCfg : ResBlockCfg :=
  { in_channels := 2, out_channels := 4, num_layers := 2, dilation := 1,
    dimensions := 3 }

/-- A valid residual-block configuration with differing channel counts and
the default `'pad'` shortcut, matching the channel counts of the concrete
witness tensors. -/
def goodResCfgPad : ResBlockCfg :=
  { in_channels := 2, out_channels := 6, num_layers := 1, dilation := 1,
    dimensions := 3 }

/-- C4 counterexample: the configuration `badDimsCfg` passes both asserted
checks (its padding mode is valid and the normalization modes are not both
set), yet construction does not succeed: it stops with an unbound-local
name error because no padding class is selected for `dimensions = 1`. -/
theorem convolutional_block_dims_counterexample :
    badDimsCfg.padding_mode ∈ PADDING_MODES
      ∧ ¬ (badDimsCfg.batch_norm ∧ badDimsCfg.instance_norm)
      ∧ mkConvBlock badDimsCfg = .error .nameError :=
  ⟨by decide, by decide, rfl⟩

/-- C4 (amended): `ConvolutionalBlock.__init__` raises an assertion
failure exactly when `batch_norm` and `instance_norm` are both set or when
`padding_mode` is invalid; a configuration passing both checks succeeds
whenever `dimensions` is 2 or 3 or the kernel size does not exceed 1, and
fails with an unbound-local name error when `dimensions` is neither 2 nor
3 and the kernel size exceeds 1. -/
theorem convolutional_block_assertion_characterization (c : ConvBlockCfg) :
    (mkConvBlock c = .error .assertionError
        ↔ ((c.batch_norm ∧ c.instance_norm) ∨ c.padding_mode ∉ PADDING_MODES))
    ∧ (c.padding_mode ∈ PADDING_MODES → ¬ (c.batch_norm ∧ c.instance_norm) →
        (c.dimensions = 2 ∨ c.dimensions = 3 ∨ c.kernel_size ≤ 1) →
        mkConvBlock c = .ok ⟨convBlockLayers c⟩)
    ∧ (c.padding_mode ∈ PADDING_MODES → ¬ (c.batch_norm ∧ c.instance_norm) →
        c.dimensions ≠ 2 → c.dimensions ≠ 3 → 1 < c.kernel_size →
        mkConvBlock c = .error .nameError) := by
  unfold mkConvBlock
  split_ifs with h1 h2 h3
    <;> refine ⟨?_, ?_, ?_⟩
    <;> simp_all
    <;> first
      | tauto
      | omega

theorem convolutional_block_assertion_characterization_witness :
    mkConvBlock goodConvCfg = .ok ⟨convBlockLayers goodConvCfg⟩ :=
  (convolutional_block_assertion_characterization goodConvCfg).2.1
    (by decide) (by decide) (by decide)

/-- C5: `HighResNet.__init__` raises an assertion failure whenever
`dimensions` is neither `2` nor `3` (in particular for its default
`None`), `ResidualBlock.__init__` raises an assertion failure whenever
`residual_type` is neither `'pad'` nor `'project'`, and these are the only
checks those two constructors themselves perform: once they pass (and the
flags validated by the inner `ConvolutionalBlock`s are valid),
construction succeeds. -/
theorem constructor_assertions :
    (∀ cfg : HighResNetCfg, cfg.dimensions ≠ some 2 → cfg.dimensions ≠ some 3 →
        mkHighResNet cfg = .error .assertionError)
    ∧ (∀ c : ResBlockCfg, c.residual_type ≠ "pad" → c.residual_type ≠ "project" →
        mkResidualBlock c = .error .assertionError)
    ∧ (∀ cfg : HighResNetCfg, (cfg.dimensions = some 2 ∨ cfg.dimensions = some 3) →
        cfg.padding_mode ∈ PADDING_MODES → ¬ (cfg.batch_norm ∧ cfg.instance_norm) →
        mkHighResNet cfg = .ok (buildNet cfg (cfg.dimensions.getD 0)))
    ∧ (∀ c : ResBlockCfg, (c.residual_type = "pad" ∨ c.residual_type = "project") →
        c.padding_mode ∈ PADDING_MODES → ¬ (c.batch_norm ∧ c.instance_norm) →
        (c.dimensions = 2 ∨ c.dimensions = 3) →
        mkResidualBlock c = .ok (buildResBlock c)) := by
  refine ⟨?_, ?_, ?_, ?_⟩
  · intro cfg h2 h3
    unfold mkHighResNet
    rw [if_pos (by tauto)]
  · intro c h2 h3
    unfold mkResidualBlock
    rw [if_pos (by tauto)]
  · intro cfg h1 h2 h3
    exact mkHighResNet_eq_ok cfg ⟨h1, h2, h3⟩
  · intro c h1 h2 h3 h4
    exact mkResidualBlock_eq_ok c h1 ⟨h2, h3, h4⟩

theorem constructor_assertions_witness :
    mkHighResNet { input_channels := 1, output_channels := 1 } = .error .assertionError
    ∧ mkResidualBlock badResCfg = .error .assertionError
    ∧ mkHighResNet exCfg = .ok (buildNet exCfg (exCfg.dimensions.getD 0))
    ∧ mkResidualBlock goodResCfg = .ok (buildResBlock goodResCfg) :=
  ⟨constructor_assertions.1 { input_channels := 1, output_channels := 1 }
      (by decide) (by decide),
   constructor_assertions.2.1 badResCfg (by decide) (by decide),
   constructor_assertions.2.2.1 exCfg (by decide) (by decide) (by decide),
   constructor_assertions.2.2.2 goodResCfg (by decide) (by decide) (by decide) (by decide)⟩

/-- C1: the `receptive_field` property of every successfully constructed
`HighResNet` equals `3 + sum over d < D of B * N * 2 ^ (d + 1)`, and this
value is the receptive field of the literal topology the constructor
builds (one kernel-3 dilation-1 block, then for each `d` a dilation block
of `N` residual blocks of `B` kernel-3 convolutions at dilation `2 ^ d`,
then kernel-1 blocks contributing nothing). -/
theorem receptive_field_matches_topology (cfg : HighResNetCfg) (net : HighResNetM)
    (h : mkHighResNet cfg = .ok net) :
    net.receptive_field
        = 3 + ((List.range cfg.dilations).map (fun d =>
            cfg.layers_per_residual_block * cfg.residual_blocks_per_dilation
              * 2 ^ (d + 1))).sum
      ∧ net.receptive_field = topologyReceptiveField net.block := by
  obtain ⟨hchecks, rfl⟩ := (mkHighResNet_ok_iff cfg net).1 h
  have hrf := buildDilLoop_rfContrib (dilLoopParams cfg (cfg.dimensions.getD 0))
    cfg.dilations 0 (2 ^ cfg.initial_out_channels_power)
    (2 ^ cfg.initial_out_channels_power) none
  simp only [dilLoopParams] at hrf
  constructor
  · simp only [HighResNetM.receptive_field, buildNet]
    omega
  · rcases hdrop : cfg.add_dropout_layer
      <;> simp [topologyReceptiveField, buildNet, dilLoopParams, hdrop, HBlock.rfContrib,
        List.map_map, Function.comp_def, convBlock_rfContrib, hrf, firstConvCfg,
        classifierConvCfg, dropoutConvCfg, HighResNetM.receptive_field]
      <;> omega

theorem receptive_field_matches_topology_witness :
    exNet.receptive_field
        = 3 + ((List.range exCfg.dilations).map (fun d =>
            exCfg.layers_per_residual_block * exCfg.residual_blocks_per_dilation
              * 2 ^ (d + 1))).sum
      ∧ exNet.receptive_field = topologyReceptiveField exNet.block :=
  receptive_field_matches_topology exCfg exNet (by rfl)

/-- C2: the `num_parameters` property of every successfully constructed
`HighResNet` is the sum over all learned parameter tensors of the product
of the tensor dimensions, and equals the scalar parameter count of the
literal topology built for the configuration. -/
theorem num_parameters_matches_topology (cfg : HighResNetCfg) (net : HighResNetM)
    (h : mkHighResNet cfg = .ok net) :
    net.num_parameters = (net.parameterShapes.map List.prod).sum
      ∧ net.num_parameters = specParamCount cfg (cfg.dimensions.getD 0) := by
  obtain ⟨hchecks, rfl⟩ := (mkHighResNet_ok_iff cfg net).1 h
  exact ⟨rfl, buildNet_num_parameters cfg _⟩

theorem num_parameters_matches_topology_witness :
    exNet.num_parameters = (exNet.parameterShapes.map List.prod).sum
      ∧ exNet.num_parameters = specParamCount exCfg (exCfg.dimensions.getD 0) :=
  num_parameters_matches_topology exCfg exNet (by rfl)

/-- C3: for every input, `HighResNet.forward` returns exactly the
configured output activation (`Sigmoid` for `'sigmoid'`, `Softmax` for
`'softmax'`, the identity for `'none'`) applied to the sequential
composition of all constructed blocks applied to the input. -/
theorem forward_applies_activation_to_blocks {τ : Type}
    (applyB : HBlock → τ → τ) (sigF softF : τ → τ) (cfg : HighResNetCfg)
    (net : HighResNetM) (x : τ) (h : mkHighResNet cfg = .ok net) :
    (cfg.outputs_activation = "sigmoid" →
        netForward applyB sigF softF net x = .ok (sigF (seqForward applyB net.block x)))
    ∧ (cfg.outputs_activation = "softmax" →
        netForward applyB sigF softF net x = .ok (softF (seqForward applyB net.block x)))
    ∧ (cfg.outputs_activation = "none" →
        netForward applyB sigF softF net x = .ok (seqForward applyB net.block x)) := by
  obtain ⟨hchecks, rfl⟩ := (mkHighResNet_ok_iff cfg net).1 h
  refine ⟨fun hs => ?_, fun hs => ?_, fun hs => ?_⟩
    <;> simp [netForward, buildNet, chooseActivation, hs, applyActivation]

/-- Concrete interpretations used by the forward-pass witnesses. -/
def applyBEx : HBlock → Nat → Nat := fun _ t => t + 1

def sigEx : Nat → Nat := fun t => t * 2

def softEx : Nat → Nat := fun t => t + 7

theorem forward_applies_activation_to_blocks_witness :
    netForward applyBEx sigEx softEx exNet 0
      = .ok (sigEx (seqForward applyBEx exNet.block 0)) :=
  (forward_applies_activation_to_blocks applyBEx sigEx softEx exCfg exNet 0 (by rfl)).1
    rfl

/-- C6: a forward call reads the model state but writes none of the
hyperparameter fields recorded at construction: the state after the call
is the state before it, field by field. -/
theorem forward_preserves_hyperparameters {τ : Type}
    (applyB : HBlock → τ → τ) (sigF softF : τ → τ) (net : HighResNetM) (x y : τ)
    (net' : HighResNetM)
    (h : netForwardState applyB sigF softF net x = .ok (y, net')) :
    net'.in_channels = net.in_channels ∧ net'.out_channels = net.out_channels
    ∧ net'.layers_per_residual_block = net.layers_per_residual_block
    ∧ net'.residual_blocks_per_dilation = net.residual_blocks_per_dilation
    ∧ net'.dilations = net.dilations
    ∧ net'.outputs_activation = net.outputs_activation
    ∧ net'.block = net.block := by
  unfold netForwardState at h
  rcases ha : net.outputs_activation with _ | a
  · rw [ha] at h
    exact absurd h (by simp)
  · rw [ha] at h
    simp only [Except.ok.injEq, Prod.mk.injEq] at h
    obtain ⟨-, h2⟩ := h
    subst h2
    exact ⟨rfl, rfl, rfl, rfl, rfl, ha, rfl⟩

theorem forward_preserves_hyperparameters_witness :
    exNet.in_channels = exNet.in_channels ∧ exNet.out_channels = exNet.out_channels
    ∧ exNet.layers_per_residual_block = exNet.layers_per_residual_block
    ∧ exNet.residual_blocks_per_dilation = exNet.residual_blocks_per_dilation
    ∧ exNet.dilations = exNet.dilations
    ∧ exNet.outputs_activation = exNet.outputs_activation
    ∧ exNet.block = exNet.block :=
  forward_preserves_hyperparameters applyBEx sigEx softEx exNet 0
    (sigEx (seqForward applyBEx exNet.block 0)) exNet (by rfl)

/-- C7: `ResidualBlock.forward` with `residual=True` returns the sum of
the convolution-stack output and a dimension-matched copy of the input
(the input itself when the channel counts agree, the kernel-1 projection
for `residual_type='project'`, the zero-channel-padded copy for
`residual_type='pad'`); with `residual=False` it returns the stack output
alone. -/
theorem residual_forward_cases (c : ResBlockCfg) (rb : ResBlock)
    (h : mkResidualBlock c = .ok rb) (stackF projF : T3 → T3) (x : T3) :
    (c.residual = false → residualBlockForward rb stackF projF x = .ok (stackF x))
    ∧ (c.residual = true → c.in_channels = c.out_channels →
        residualBlockForward rb stackF projF x = .ok (addT x (stackF x)))
    ∧ (c.residual = true → c.in_channels ≠ c.out_channels →
        c.residual_type = "project" →
        rb.change_dim_layer = some (.convL c.in_channels c.out_channels 1 c.dilation
            false c.dimensions)
          ∧ residualBlockForward rb stackF projF x = .ok (addT (projF x) (stackF x)))
    ∧ (c.residual = true → c.in_channels ≠ c.out_channels →
        c.residual_type = "pad" → channelsOf x ≤ channelsOf (stackF x) →
        padShortcut x (channelsOf (stackF x))
            = .ok (x.map (fun bi => zeroChannels x (channelsOf (stackF x)) ++ bi
                ++ zeroChannels x (channelsOf (stackF x))))
          ∧ residualBlockForward rb stackF projF x
            = .ok (addT (x.map (fun bi => zeroChannels x (channelsOf (stackF x)) ++ bi
                ++ zeroChannels x (channelsOf (stackF x)))) (stackF x))) := by
  obtain ⟨hty, stack, hcs, rfl⟩ := mkResidualBlock_ok_inv c rb h
  refine ⟨fun hres => ?_, fun hres heq => ?_, fun hres hne hp => ?_,
    fun hres hne hp hch => ?_⟩
  · simp [residualBlockForward, hres]
  · simp [residualBlockForward, hres, heq]
  · have hlayer : (if c.in_channels ≠ c.out_channels ∧ c.residual_type = "project" then
        some (Prim.convL c.in_channels c.out_channels 1 c.dilation false c.dimensions)
      else none) = some (.convL c.in_channels c.out_channels 1 c.dilation false
        c.dimensions) := by
      rw [if_pos ⟨hne, hp⟩]
    exact ⟨hlayer, by simp [residualBlockForward, hres, hne, hp]⟩
  · have hps : padShortcut x (channelsOf (stackF x))
        = .ok (x.map (fun bi => zeroChannels x (channelsOf (stackF x)) ++ bi
            ++ zeroChannels x (channelsOf (stackF x)))) := by
      unfold padShortcut
      rw [if_neg (Nat.not_lt.mpr hch)]
    refine ⟨hps, ?_⟩
    have hnp : c.residual_type ≠ "project" := by
      rw [hp]
      decide
    simp [residualBlockForward, hres, hne, hp, hnp, hps]

/-- A concrete input tensor: one batch element, two channels, two spatial
entries per channel. -/
def xEx : T3 := [[[1, 2], [3, 4]]]

/-- A concrete stack interpretation returning a tensor with six channels. -/
def stackEx : T3 → T3 := fun _ =>
  [[[5, 6], [7, 8], [9, 10], [11, 12], [13, 14], [15, 16]]]

theorem residual_forward_cases_witness :
    padShortcut xEx (channelsOf (stackEx xEx))
        = .ok (xEx.map (fun bi => zeroChannels xEx (channelsOf (stackEx xEx)) ++ bi
            ++ zeroChannels xEx (channelsOf (stackEx xEx))))
      ∧ residualBlockForward (buildResBlock goodResCfgPad) stackEx id xEx
        = .ok (addT (xEx.map (fun bi => zeroChannels xEx (channelsOf (stackEx xEx)) ++ bi
            ++ zeroChannels xEx (channelsOf (stackEx xEx)))) (stackEx xEx)) :=
  residual_forward_cases goodResCfgPad (buildResBlock goodResCfgPad) (by rfl)
    stackEx id xEx |>.2.2.2 rfl (by decide) rfl (by decide)

/-- C9: with `residual_type='pad'` and differing channel counts, the
shortcut concatenates `(out_channels - in_channels) // 2` zero channels on
each side of the input, leaving the original values in the middle
channels; the result has `out_channels` channels exactly when the channel
difference is even, and a negative difference is a run-time error. -/
theorem pad_shortcut_channels (x : T3) (outC : Nat) (hx : x ≠ [])
    (hwf : ∀ bi ∈ x, bi.length = channelsOf x) :
    (outC < channelsOf x → padShortcut x outC = .error .runtimeError)
    ∧ (channelsOf x ≤ outC →
        padShortcut x outC = .ok (x.map (fun bi => zeroChannels x outC ++ bi
            ++ zeroChannels x outC))
        ∧ (∀ bi ∈ x, (zeroChannels x outC ++ bi ++ zeroChannels x outC).length
            = channelsOf x + 2 * ((outC - channelsOf x) / 2))
        ∧ (channelsOf (x.map (fun bi => zeroChannels x outC ++ bi
              ++ zeroChannels x outC)) = outC
            ↔ (outC - channelsOf x) % 2 = 0)
        ∧ ∀ bi ∈ x, ((zeroChannels x outC ++ bi ++ zeroChannels x outC).drop
            ((outC - channelsOf x) / 2)).take bi.length = bi) := by
  have hzs : (zeroChannels x outC).length = (outC - channelsOf x) / 2 := by
    simp [zeroChannels]
  constructor
  · intro hlt
    unfold padShortcut
    rw [if_pos hlt]
  · intro hle
    refine ⟨?_, ?_, ?_, ?_⟩
    · unfold padShortcut
      rw [if_neg (Nat.not_lt.mpr hle)]
    · intro bi hbi
      have hb := hwf bi hbi
      simp [hzs, hb]
      omega
    · rcases x with _ | ⟨b, t⟩
      · exact absurd rfl hx
      · simp only [channelsOf, zeroChannels, List.headD] at hle ⊢
        simp only [List.map_cons, List.headD, List.length_append, List.length_replicate]
        omega
    · intro bi hbi
      rw [List.append_assoc, ← hzs, List.drop_left, List.take_left]

theorem pad_shortcut_channels_witness :
    padShortcut xEx 6 = .ok (xEx.map (fun bi => zeroChannels xEx 6 ++ bi
        ++ zeroChannels xEx 6))
    ∧ (channelsOf (xEx.map (fun bi => zeroChannels xEx 6 ++ bi ++ zeroChannels xEx 6)) = 6
        ↔ (6 - channelsOf xEx) % 2 = 0) := by
  obtain ⟨hok, -, hiff, -⟩ :=
    (pad_shortcut_channels xEx 6 (by decide) (by decide)).2 (by decide)
  exact ⟨hok, hiff⟩

/-- C8: every kernel-3 convolutional block pads by exactly its dilation on
each spatial side before convolving (the padding layer immediately
precedes the convolution), so it preserves the spatial size; consequently
every successfully built network preserves the spatial size of its
input. -/
theorem kernel3_blocks_preserve_spatial :
    (∀ (c : ConvBlockCfg) (cb : ConvBlock), c.kernel_size = 3 →
        mkConvBlock c = .ok cb →
        (∃ s t, s ++ [Prim.padL c.dilation c.padding_mode c.dimensions,
            Prim.convL c.in_channels c.out_channels 3 c.dilation
              (!(c.instance_norm || c.batch_norm)) c.dimensions] ++ t
          = cb.convolutional_block)
        ∧ ∀ n : Int, cb.spatialOut n = n)
    ∧ (∀ (cfg : HighResNetCfg) (net : HighResNetM), mkHighResNet cfg = .ok net →
        ∀ n : Int, netSpatialOut net.block n = n) := by
  constructor
  · intro c cb hk h
    obtain ⟨-, -, rfl⟩ := mkConvBlock_ok_inv c cb h
    constructor
    · refine ⟨(if c.preactivation then normLayers c c.in_channels
          ++ (if c.activation then [Prim.reluL] else []) else []),
        (if !c.preactivation then normLayers c c.out_channels
          ++ (if c.activation then [Prim.reluL] else []) else []), ?_⟩
      simp [convBlockLayers, hk]
    · intro n
      exact convBlock_spatialOut c (Or.inl hk) n
  · intro cfg net h n
    obtain ⟨-, rfl⟩ := (mkHighResNet_ok_iff cfg net).1 h
    exact buildNet_spatialOut cfg _ n

theorem kernel3_blocks_preserve_spatial_witness :
    ((∃ s t, s ++ [Prim.padL goodConvCfg.dilation goodConvCfg.padding_mode
          goodConvCfg.dimensions,
        Prim.convL goodConvCfg.in_channels goodConvCfg.out_channels 3
          goodConvCfg.dilation
          (!(goodConvCfg.instance_norm || goodConvCfg.batch_norm))
          goodConvCfg.dimensions] ++ t
        = (⟨convBlockLayers goodConvCfg⟩ : ConvBlock).convolutional_block)
      ∧ ConvBlock.spatialOut ⟨convBlockLayers goodConvCfg⟩ 5 = 5)
    ∧ netSpatialOut exNet.block 7 = 7 :=
  ⟨⟨(kernel3_blocks_preserve_spatial.1 goodConvCfg ⟨convBlockLayers goodConvCfg⟩
        rfl (by rfl)).1,
    (kernel3_blocks_preserve_spatial.1 goodConvCfg ⟨convBlockLayers goodConvCfg⟩
        rfl (by rfl)).2 5⟩,
   kernel3_blocks_preserve_spatial.2 exCfg exNet (by rfl) 7⟩

/-- C10: for an `outputs_activation` string outside
`'sigmoid'/'softmax'/'none'`, construction completes without error, the
`outputs_activation` attribute is never set, and every subsequent forward
call fails with an attribute-lookup error. -/
theorem unknown_activation_defers_error (cfg : HighResNetCfg)
    (h1 : cfg.outputs_activation ≠ "sigmoid")
    (h2 : cfg.outputs_activation ≠ "softmax")
    (h3 : cfg.outputs_activation ≠ "none")
    (hv : (cfg.dimensions = some 2 ∨ cfg.dimensions = some 3)
      ∧ cfg.padding_mode ∈ PADDING_MODES ∧ ¬ (cfg.batch_norm ∧ cfg.instance_norm)) :
    mkHighResNet cfg = .ok (buildNet cfg (cfg.dimensions.getD 0))
    ∧ (buildNet cfg (cfg.dimensions.getD 0)).outputs_activation = none
    ∧ ∀ (τ : Type) (applyB : HBlock → τ → τ) (sigF softF : τ → τ) (x : τ),
        netForward applyB sigF softF (buildNet cfg (cfg.dimensions.getD 0)) x
          = .error .attributeError := by
  have hact : chooseActivation cfg.outputs_activation = none := by
    unfold chooseActivation
    rw [if_neg h1, if_neg h2, if_neg h3]
  refine ⟨mkHighResNet_eq_ok cfg hv, ?_, ?_⟩
  · simp [buildNet, hact]
  · intro τ applyB sigF softF x
    simp [netForward, buildNet, hact]

/-- The example configuration with an unrecognized activation string. -/
def badActCfg : HighResNetCfg := { exCfg with outputs_activation := "relu" }

theorem unknown_activation_defers_error_witness :
    mkHighResNet badActCfg = .ok (buildNet badActCfg (badActCfg.dimensions.getD 0))
    ∧ (buildNet badActCfg (badActCfg.dimensions.getD 0)).outputs_activation = none
    ∧ netForward applyBEx sigEx softEx
        (buildNet badActCfg (badActCfg.dimensions.getD 0)) 0
      = .error .attributeError := by
  obtain ⟨w1, w2, w3⟩ := unknown_activation_defers_error badActCfg (by decide)
    (by decide) (by decide) ⟨by decide, by decide, by decide⟩
  exact ⟨w1, w2, w3 Nat applyBEx sigEx softEx 0⟩

end HighRes
